import Mathlib

/-!
Shallow embedding of `src/binding.cc`, the N-API binding of the aic audio
SDK.  The binding marshals JavaScript values into calls on the opaque
computational unit (the `aic_*` functions declared in `aic.h`, which is
outside the source tree); the unit is therefore a parameter of every
operation, and each operation additionally records the calls it makes into
the unit as an explicit trace.
-/

namespace AicBinding

/-- JavaScript values crossing the N-API boundary.  Numbers are restricted
to integral values, since the only conversions the binding performs on them
are the integral `Uint32Value` / `Int32Value`.  A typed array holds a
reference into a heap of buffers (modelling the pointer obtained by
`array.Data()`): `float32Array` is a `Float32Array`, and `int32Array`
stands for the typed arrays of every other element type (`Int32Array`,
`Uint8Array`, …) — the binding never distinguishes among them, since
`IsTypedArray()` accepts them all and the `As<Napi::Float32Array>()` cast
reinterprets their storage without any check.  An `external` wraps a
possibly-null C pointer, modelled as an `Option` over an abstract pointer
identity. -/
inductive JsValue where
  | undefined : JsValue
  | jsNull : JsValue
  | number : Int → JsValue
  | str : String → JsValue
  | boolean : Bool → JsValue
  | external : Option Nat → JsValue
  | float32Array : Nat → JsValue
  | int32Array : Nat → JsValue
  | arr : List JsValue → JsValue
  | object : List (String × JsValue) → JsValue
  deriving Repr

/-- Result of one binding call: either a pending JavaScript exception was
raised (`ThrowAsJavaScriptException`, after which the C++ returns
`env.Null()` to its caller), or a value was returned normally. -/
inductive JsOutcome where
  | threw : String → JsOutcome
  | returned : JsValue → JsOutcome
  deriving Repr

/-- One call into the opaque computational unit, with pointer arguments
recorded by reference: the model pointer (`none` = null) and buffer
references.  These traces let theorems speak about whether and with which
arguments the unit was invoked. -/
inductive UnitCall where
  | initCall : Option Nat → Nat → Nat → Nat → UnitCall
  | procInterleavedCall : Option Nat → Nat → Nat → Nat → UnitCall
  | procPlanarCall : Option Nat → List Nat → Nat → Nat → UnitCall
  | destroyCall : Nat → UnitCall
  | getParameterCall : Option Nat → Int → UnitCall
  | getOutputDelayCall : Option Nat → UnitCall
  | getOptimalSampleRateCall : Option Nat → UnitCall
  | getOptimalNumFramesCall : Option Nat → UnitCall
  deriving Repr, DecidableEq

/-- Modelled from the spec: the error taxonomy is a fixed enumerated code
type returned by value (`AicErrorCode` in the header, outside the source
tree).  Codes are represented by their integer value; `aicSuccess` stands
for `AIC_ERROR_CODE_SUCCESS`. -/
def aicSuccess : Nat := 0

/-- The opaque computational unit behind the binding (the licensed
transform of the SDK, declared in `aic.h` outside the source tree).  Each
field is an uninterpreted behavior the binding calls into: a result error
code, creation additionally a possibly-null model pointer, in-place
processing a set of index/value writes into the caller's buffer, and the
getters the value written through their out-parameter (`none` when the
callee leaves the out-parameter untouched).  `σ` is the type of samples,
which the binding never inspects. -/
structure AicUnit (σ : Type) where
  modelCreate : Int → String → Nat × Option Nat
  modelInitialize : Option Nat → Nat → Nat → Nat → Nat
  procInterleaved : Option Nat → List σ → Nat → Nat → Nat × List (Nat × σ)
  procPlanarErr : Option Nat → List (List σ) → Nat → Nat → Nat
  getParameterRes : Option Nat → Int → Nat × Option Int
  getOutputDelayRes : Option Nat → Nat × Option Nat
  getOptimalSampleRateRes : Option Nat → Nat × Option Nat
  getOptimalNumFramesRes : Option Nat → Nat × Option Nat
  sdkVersion : String

/-- ECMAScript `ToUint32` on an integral number, as performed by
`Napi::Number::Uint32Value()`: reduction modulo `2^32 = 4294967296` into
`[0, 2^32)`. -/
def jsToUint32 (n : Int) : Nat := (n % 4294967296).toNat

/-- ECMAScript `ToInt32` on an integral number, as performed by
`Napi::Number::Int32Value()`: reduction modulo `2^32`, reinterpreted as a
signed 32-bit value (`2^31 = 2147483648`). -/
def jsToInt32 (n : Int) : Int :=
  let m := n % 4294967296
  if m < 2147483648 then m else m - 4294967296

/-- Assignment of a `Uint32Value` result to a C `uint16_t` variable:
further truncation modulo `2^16 = 65536`. -/
def toUint16 (n : Nat) : Nat := n % 65536

/-- Value test `Napi::Value::IsExternal()`. -/
def JsValue.isExternal : JsValue → Bool
  | .external _ => true
  | _ => false

/-- Value test `Napi::Value::IsTypedArray()`: true for every typed array
regardless of its element type — a `Float32Array` and an `Int32Array` pass
alike; the element type is never inspected. -/
def JsValue.isTypedArray : JsValue → Bool
  | .float32Array _ => true
  | .int32Array _ => true
  | _ => false

/-- Value test `Napi::Value::IsArray()` (true only for a JS `Array`, not
for typed arrays). -/
def JsValue.isArray : JsValue → Bool
  | .arr _ => true
  | _ => false

/-- The data pointer obtained by `val.As<Napi::Float32Array>().Data()` on a
value that passed `IsTypedArray()`: the cast performs no element-type
check, so any typed array yields its underlying buffer, reinterpreted as
float data; a non-typed-array value yields nothing. -/
def JsValue.typedArrayData : JsValue → Option Nat
  | .float32Array b => some b
  | .int32Array b => some b
  | _ => none

/-- Indexing `info[i]`: positions beyond `info.Length()` read as
`undefined`. -/
def argAt (args : List JsValue) (i : Nat) : JsValue :=
  args.getD i JsValue.undefined

/-- Reading a named property of a returned object. -/
def lookupField : List (String × JsValue) → String → JsValue
  | [], _ => JsValue.undefined
  | (k, v) :: rest, key => if k = key then v else lookupField rest key

/-- Extraction `info[i].As<Napi::Number>().Uint32Value()`: on a number,
ECMAScript ToUint32; on any other value `napi_get_value_uint32` fails and
node-addon-api raises a pending exception, modelled as short-circuiting. -/
def numberUint32 (args : List JsValue) (i : Nat) : Except String Nat :=
  match argAt args i with
  | .number n => .ok (jsToUint32 n)
  | _ => .error "A number was expected"

/-- Extraction `info[i].As<Napi::Number>().Int32Value()`, analogous to
`numberUint32`. -/
def numberInt32 (args : List JsValue) (i : Nat) : Except String Int :=
  match argAt args i with
  | .number n => .ok (jsToInt32 n)
  | _ => .error "A number was expected"

/-- Application of the unit's in-place writes to a buffer: each `(i, v)`
pair overwrites index `i` with `v`; a write outside the buffer's extent
leaves it unchanged (the unit stays within the declared bounds, so such
writes do not arise in conforming runs). -/
def applyWrites (buf : List σ) : List (Nat × σ) → List σ
  | [] => buf
  | (i, v) :: rest => applyWrites (buf.set i v) rest

/-- The channel-collection loop of `ProcessPlanar` (binding.cc lines
128-138 and 345-355), starting at index `i` with `k` channels left to
collect: each entry must pass `IsTypedArray()` — any element type, float or
not, since the subsequent `As<Napi::Float32Array>().Data()` cast checks
nothing — and its buffer reference is collected; the first non-typed-array
entry aborts the loop with `none`. -/
def collectFrom (arrays : List JsValue) (i : Nat) : Nat → Option (List Nat)
  | 0 => some []
  | k + 1 =>
    match (arrays.getD i JsValue.undefined).typedArrayData with
    | some b => (collectFrom arrays (i + 1) k).map (b :: ·)
    | none => none

/-- Collection of the first `n` channel buffers of a JS array. -/
def collectChannels (arrays : List JsValue) (n : Nat) : Option (List Nat) :=
  collectFrom arrays 0 n

/-- Embedding of `CreateModel` (binding.cc lines 220-247): reads the model
type and license key, calls `aic_model_create` on a null-initialized
pointer, and returns an object whose `model` field is the wrapped pointer
exactly when the error is `AIC_ERROR_CODE_SUCCESS` and the pointer is
non-null, and JS `null` otherwise. -/
def createModel (u : AicUnit σ) (args : List JsValue) : JsOutcome :=
  if args.length < 2 then .threw "Expected model type and license key"
  else
    match argAt args 0, argAt args 1 with
    | .number t, .str key =>
      let r := u.modelCreate (jsToInt32 t) key
      let modelField : JsValue :=
        match r.2 with
        | some p => if r.1 = aicSuccess then .external (some p) else .jsNull
        | none => .jsNull
      .returned (.object [("error", .number r.1), ("model", modelField)])
    | _, _ => .threw "A number was expected"

/-- Embedding of `DestroyModel` (binding.cc lines 249-262): returns JS
`null` without error when the first argument is missing or not an external
or wraps a null pointer; otherwise calls `aic_model_destroy` on the
pointer. -/
def destroyModel (args : List JsValue) : JsOutcome × List UnitCall :=
  match argAt args 0 with
  | .external (some m) => (.returned .jsNull, [.destroyCall m])
  | .external none => (.returned .jsNull, [])
  | _ => (.returned .jsNull, [])

/-- Embedding of `GetSdkVersion` (binding.cc lines 264-268): ignores its
arguments and any existing model state (`world` lists the stored model
pointers of all live wrappers) and returns the string produced by
`aic_get_sdk_version`. -/
def getSdkVersion (u : AicUnit σ) (_world : List (Option Nat))
    (_args : List JsValue) : JsOutcome :=
  .returned (.str u.sdkVersion)

/-- Embedding of `ModelWrapper::~ModelWrapper` (binding.cc lines 39-44):
destroys a non-null stored model pointer and nulls it; result is the
emitted unit calls paired with the post-state of the `model_` field. -/
def wrapperDestructor : Option Nat → List UnitCall × Option Nat
  | some m => ([UnitCall.destroyCall m], none)
  | none => ([], none)

/-- Embedding of `ModelWrapper::Initialize` (binding.cc lines 71-87):
requires at least 3 arguments, converts them with `Uint32Value` (the
channel count further truncated into a `uint16_t`, the frame count widened
into a `size_t`), and calls `aic_model_initialize`.  The stored `model_`
pointer is not modified. -/
def wrapperInitialize (u : AicUnit σ) (model : Option Nat)
    (args : List JsValue) : JsOutcome × List UnitCall :=
  if args.length < 3 then (.threw "Expected 3 arguments", [])
  else
    match numberUint32 args 0, numberUint32 args 1, numberUint32 args 2 with
    | .ok sr, .ok ch32, .ok nf =>
      let ch := toUint16 ch32
      (.returned (.number (u.modelInitialize model sr ch nf)),
       [UnitCall.initCall model sr ch nf])
    | .error msg, _, _ => (.threw msg, [])
    | _, .error msg, _ => (.threw msg, [])
    | _, _, .error msg => (.threw msg, [])

/-- Embedding of `ModelWrapper::ProcessInterleaved` (binding.cc lines
95-113): requires at least 3 arguments with a typed array first, converts
the dimensions, hands the buffer's data pointer to
`aic_model_process_interleaved` (which mutates it in place), and returns
the error code.  `heap` maps buffer references to contents; the third
component is the heap after the call. -/
def wrapperProcessInterleaved (u : AicUnit σ) (heap : List (List σ))
    (model : Option Nat) (args : List JsValue) :
    JsOutcome × List UnitCall × List (List σ) :=
  match (argAt args 0).typedArrayData with
  | some bufId =>
    if args.length < 3 then (.threw "Expected Float32Array and dimensions", [], heap)
    else
      match numberUint32 args 1, numberUint32 args 2 with
      | .ok ch32, .ok nf =>
        let ch := toUint16 ch32
        let buf := heap.getD bufId []
        let r := u.procInterleaved model buf ch nf
        (.returned (.number r.1),
         [UnitCall.procInterleavedCall model bufId ch nf],
         heap.set bufId (applyWrites buf r.2))
      | .error msg, _ => (.threw msg, [], heap)
      | _, .error msg => (.threw msg, [], heap)
  | none => (.threw "Expected Float32Array and dimensions", [], heap)

/-- Embedding of `ModelWrapper::ProcessPlanar` (binding.cc lines 115-143):
requires at least 3 arguments with a JS array first, converts the
dimensions, collects the first `num_channels` entries of the array (each
must be a typed array, otherwise a TypeError is raised before the unit is
reached) and calls `aic_model_process_planar` on the collected channel
pointers.  The channels' in-place mutation is elided; the trace records the
invocation. -/
def wrapperProcessPlanar (u : AicUnit σ) (heap : List (List σ))
    (model : Option Nat) (args : List JsValue) : JsOutcome × List UnitCall :=
  match argAt args 0 with
  | .arr elems =>
    if args.length < 3 then
      (.threw "Expected array of Float32Arrays and dimensions", [])
    else
      match numberUint32 args 1, numberUint32 args 2 with
      | .ok ch32, .ok nf =>
        let ch := toUint16 ch32
        match collectChannels elems ch with
        | some bufs =>
          (.returned (.number
             (u.procPlanarErr model (bufs.map (fun b => heap.getD b [])) ch nf)),
           [UnitCall.procPlanarCall model bufs ch nf])
        | none => (.threw "Expected Float32Array", [])
      | .error msg, _ => (.threw msg, [])
      | _, .error msg => (.threw msg, [])
  | _ => (.threw "Expected array of Float32Arrays and dimensions", [])

/-- Embedding of `ModelWrapper::GetParameter` (binding.cc lines 162-181):
requires one argument, converts it with `Int32Value`, initializes the
out-parameter to `0.0f`, calls `aic_model_get_parameter`, and returns an
object carrying both the error code and whatever the out-parameter holds
afterwards (its initial `0` when the unit wrote nothing). -/
def wrapperGetParameter (u : AicUnit σ) (model : Option Nat)
    (args : List JsValue) : JsOutcome × List UnitCall :=
  if args.length < 1 then (.threw "Expected parameter", [])
  else
    match numberInt32 args 0 with
    | .ok p =>
      let r := u.getParameterRes model p
      (.returned (.object [("error", .number r.1), ("value", .number (r.2.getD 0))]),
       [UnitCall.getParameterCall model p])
    | .error msg => (.threw msg, [])

/-- Embedding of `ModelWrapper::GetOutputDelay` (binding.cc lines 183-193):
takes no arguments, initializes the out-parameter to `0`, calls
`aic_get_output_delay`, and returns an object with the error code and the
out-parameter's final value. -/
def wrapperGetOutputDelay (u : AicUnit σ) (model : Option Nat) :
    JsOutcome × List UnitCall :=
  let r := u.getOutputDelayRes model
  (.returned (.object [("error", .number r.1), ("delay", .number (r.2.getD 0))]),
   [UnitCall.getOutputDelayCall model])

/-- Embedding of `ModelWrapper::GetOptimalSampleRate` (binding.cc lines
195-205), analogous to `wrapperGetOutputDelay`. -/
def wrapperGetOptimalSampleRate (u : AicUnit σ) (model : Option Nat) :
    JsOutcome × List UnitCall :=
  let r := u.getOptimalSampleRateRes model
  (.returned (.object [("error", .number r.1), ("sampleRate", .number (r.2.getD 0))]),
   [UnitCall.getOptimalSampleRateCall model])

/-- Embedding of `ModelWrapper::GetOptimalNumFrames` (binding.cc lines
207-217), analogous to `wrapperGetOutputDelay`. -/
def wrapperGetOptimalNumFrames (u : AicUnit σ) (model : Option Nat) :
    JsOutcome × List UnitCall :=
  let r := u.getOptimalNumFramesRes model
  (.returned (.object [("error", .number r.1), ("numFrames", .number (r.2.getD 0))]),
   [UnitCall.getOptimalNumFramesCall model])

/-- Embedding of the module helper `initialize` lambda (binding.cc lines
276-293): requires an external first argument, reads the model pointer from
it, converts arguments 1-3 with `Uint32Value` (channel count truncated into
`uint16_t`), and calls `aic_model_initialize`.  Arguments beyond index 3
are never read. -/
def moduleInitialize (u : AicUnit σ) (args : List JsValue) :
    JsOutcome × List UnitCall :=
  match argAt args 0 with
  | .external m =>
    match numberUint32 args 1, numberUint32 args 2, numberUint32 args 3 with
    | .ok sr, .ok ch32, .ok nf =>
      let ch := toUint16 ch32
      (.returned (.number (u.modelInitialize m sr ch nf)),
       [UnitCall.initCall m sr ch nf])
    | .error msg, _, _ => (.threw msg, [])
    | _, .error msg, _ => (.threw msg, [])
    | _, _, .error msg => (.threw msg, [])
  | _ => (.threw "Expected model handle", [])

/-- Embedding of the module helper `processInterleaved` lambda (binding.cc
lines 310-328): requires an external first argument and a typed array
second argument, converts the dimensions, and calls
`aic_model_process_interleaved` on the buffer's data pointer. -/
def moduleProcessInterleaved (u : AicUnit σ) (heap : List (List σ))
    (args : List JsValue) : JsOutcome × List UnitCall × List (List σ) :=
  match argAt args 0, (argAt args 1).typedArrayData with
  | .external m, some bufId =>
    match numberUint32 args 2, numberUint32 args 3 with
    | .ok ch32, .ok nf =>
      let ch := toUint16 ch32
      let buf := heap.getD bufId []
      let r := u.procInterleaved m buf ch nf
      (.returned (.number r.1),
       [UnitCall.procInterleavedCall m bufId ch nf],
       heap.set bufId (applyWrites buf r.2))
    | .error msg, _ => (.threw msg, [], heap)
    | _, .error msg => (.threw msg, [], heap)
  | _, _ => (.threw "Invalid arguments", [], heap)

/-- Embedding of the module helper `processPlanar` lambda (binding.cc lines
330-360): requires an external first argument and a JS array second
argument, converts the dimensions, collects the first `num_channels`
channel buffers (each must be a typed array) and calls
`aic_model_process_planar`. -/
def moduleProcessPlanar (u : AicUnit σ) (heap : List (List σ))
    (args : List JsValue) : JsOutcome × List UnitCall :=
  match argAt args 0, argAt args 1 with
  | .external m, .arr elems =>
    match numberUint32 args 2, numberUint32 args 3 with
    | .ok ch32, .ok nf =>
      let ch := toUint16 ch32
      match collectChannels elems ch with
      | some bufs =>
        (.returned (.number
           (u.procPlanarErr m (bufs.map (fun b => heap.getD b [])) ch nf)),
         [UnitCall.procPlanarCall m bufs ch nf])
      | none => (.threw "Expected Float32Array", [])
    | .error msg, _ => (.threw msg, [])
    | _, .error msg => (.threw msg, [])
  | _, _ => (.threw "Invalid arguments", [])

/-- A concrete computational unit over integer samples, used to evaluate
the binding operations at closed inputs. -/
def sampleUnit : AicUnit Int where
  modelCreate := fun _ _ => (aicSuccess, some 1)
  modelInitialize := fun _ _ _ _ => aicSuccess
  procInterleaved := fun _ buf _ _ => (aicSuccess, (List.range buf.length).map (fun i => (i, 7)))
  procPlanarErr := fun _ _ _ _ => aicSuccess
  getParameterRes := fun _ _ => (3, none)
  getOutputDelayRes := fun _ => (3, none)
  getOptimalSampleRateRes := fun _ => (3, none)
  getOptimalNumFramesRes := fun _ => (3, none)
  sdkVersion := "1.0.0"

/-- Applying any set of in-place writes never changes a buffer's length:
a C write through the data pointer cannot resize the caller's array. -/
lemma applyWrites_length (ws : List (Nat × σ)) (buf : List σ) :
    (applyWrites buf ws).length = buf.length := by
  induction ws generalizing buf with
  | nil => rfl
  | cons w rest ih =>
    obtain ⟨i, v⟩ := w
    rw [applyWrites, ih, List.length_set]

/-- The unchecked `Float32Array` cast yields a data pointer exactly for the
values `IsTypedArray()` accepts. -/
lemma typedArrayData_eq_none_iff (v : JsValue) :
    v.typedArrayData = none ↔ v.isTypedArray = false := by
  cases v <;> simp [JsValue.typedArrayData, JsValue.isTypedArray]

/-- The channel-collection loop aborts exactly when one of the entries it
visits is not a typed array (of whatever element type). -/
lemma collectFrom_eq_none_iff (arrays : List JsValue) :
    ∀ (k i : Nat), collectFrom arrays i k = none ↔
      ∃ j, j < k ∧ (arrays.getD (i + j) JsValue.undefined).isTypedArray = false := by
  intro k
  induction k with
  | zero => intro i; simp [collectFrom]
  | succ k ih =>
    intro i
    cases hv : (arrays.getD i JsValue.undefined).typedArrayData with
    | some b =>
      rw [collectFrom, hv]
      simp only [Option.map_eq_none', ih (i + 1)]
      constructor
      · rintro ⟨j, hj, hp⟩
        exact ⟨j + 1, by omega, by rw [show i + (j + 1) = i + 1 + j by omega]; exact hp⟩
      · rintro ⟨j, hj, hp⟩
        cases j with
        | zero =>
          rw [Nat.add_zero, ← typedArrayData_eq_none_iff, hv] at hp
          simp at hp
        | succ j =>
          exact ⟨j, by omega, by rw [show i + 1 + j = i + (j + 1) by omega]; exact hp⟩
    | none =>
      rw [collectFrom, hv]
      refine iff_of_true rfl ⟨0, Nat.succ_pos _, ?_⟩
      rw [Nat.add_zero, ← typedArrayData_eq_none_iff, hv]

/-- Specialization of `collectFrom_eq_none_iff` to the full collection. -/
lemma collectChannels_eq_none_iff (arrays : List JsValue) (n : Nat) :
    collectChannels arrays n = none ↔
      ∃ j, j < n ∧ (arrays.getD j JsValue.undefined).isTypedArray = false := by
  rw [collectChannels, collectFrom_eq_none_iff]
  simp

/-- The `uint16_t` assignment composed with ToUint32 is reduction of the
caller's number modulo `2^16`. -/
lemma toUint16_jsToUint32 (n : Int) :
    toUint16 (jsToUint32 n) = (n % (2 ^ 16 : Int)).toNat := by
  unfold toUint16 jsToUint32
  have h16 : ((2 : Int) ^ 16) = 65536 := by norm_num
  rw [h16]
  omega

/-- ToUint32 written with the claim-facing modulus. -/
lemma jsToUint32_eq_mod (n : Int) : jsToUint32 n = (n % (2 ^ 32 : Int)).toNat := by
  unfold jsToUint32
  norm_num

/-- Evaluation of `wrapperInitialize` on a well-formed argument list. -/
lemma wrapperInitialize_cons (u : AicUnit σ) (m : Option Nat) (sr ch nf : Int)
    (rest : List JsValue) :
    wrapperInitialize u m
        (JsValue.number sr :: JsValue.number ch :: JsValue.number nf :: rest) =
      (JsOutcome.returned (JsValue.number
         (u.modelInitialize m (jsToUint32 sr) (toUint16 (jsToUint32 ch)) (jsToUint32 nf))),
       [UnitCall.initCall m (jsToUint32 sr) (toUint16 (jsToUint32 ch)) (jsToUint32 nf)]) := by
  have hlen : ¬ ((JsValue.number sr :: JsValue.number ch :: JsValue.number nf ::
      rest).length < 3) := by
    simp only [List.length_cons]
    omega
  rw [wrapperInitialize, if_neg hlen]
  simp [numberUint32, argAt, List.getD_cons_zero, List.getD_cons_succ]

/-- Evaluation of `moduleInitialize` on a well-formed argument list. -/
lemma moduleInitialize_cons (u : AicUnit σ) (m : Option Nat) (sr ch nf : Int)
    (rest : List JsValue) :
    moduleInitialize u
        (JsValue.external m :: JsValue.number sr :: JsValue.number ch ::
         JsValue.number nf :: rest) =
      (JsOutcome.returned (JsValue.number
         (u.modelInitialize m (jsToUint32 sr) (toUint16 (jsToUint32 ch)) (jsToUint32 nf))),
       [UnitCall.initCall m (jsToUint32 sr) (toUint16 (jsToUint32 ch)) (jsToUint32 nf)]) := rfl

/-- Evaluation of `wrapperProcessInterleaved` on a well-formed argument
list. -/
lemma wrapperProcessInterleaved_cons (u : AicUnit σ) (heap : List (List σ))
    (m : Option Nat) (b : Nat) (ch nf : Int) (rest : List JsValue) :
    wrapperProcessInterleaved u heap m
        (JsValue.float32Array b :: JsValue.number ch :: JsValue.number nf :: rest) =
      (JsOutcome.returned (JsValue.number
         (u.procInterleaved m (heap.getD b [])
           (toUint16 (jsToUint32 ch)) (jsToUint32 nf)).1),
       [UnitCall.procInterleavedCall m b (toUint16 (jsToUint32 ch)) (jsToUint32 nf)],
       heap.set b (applyWrites (heap.getD b [])
         (u.procInterleaved m (heap.getD b [])
           (toUint16 (jsToUint32 ch)) (jsToUint32 nf)).2)) := by
  have hlen : ¬ ((JsValue.float32Array b :: JsValue.number ch :: JsValue.number nf ::
      rest).length < 3) := by
    simp only [List.length_cons]
    omega
  rw [wrapperProcessInterleaved]
  simp only [argAt, List.getD_cons_zero, JsValue.typedArrayData]
  rw [if_neg hlen]
  simp [numberUint32, argAt, List.getD_cons_zero, List.getD_cons_succ]

/-- Evaluation of `moduleProcessInterleaved` on a well-formed argument
list. -/
lemma moduleProcessInterleaved_cons (u : AicUnit σ) (heap : List (List σ))
    (m : Option Nat) (b : Nat) (ch nf : Int) (rest : List JsValue) :
    moduleProcessInterleaved u heap
        (JsValue.external m :: JsValue.float32Array b :: JsValue.number ch ::
         JsValue.number nf :: rest) =
      (JsOutcome.returned (JsValue.number
         (u.procInterleaved m (heap.getD b [])
           (toUint16 (jsToUint32 ch)) (jsToUint32 nf)).1),
       [UnitCall.procInterleavedCall m b (toUint16 (jsToUint32 ch)) (jsToUint32 nf)],
       heap.set b (applyWrites (heap.getD b [])
         (u.procInterleaved m (heap.getD b [])
           (toUint16 (jsToUint32 ch)) (jsToUint32 nf)).2)) := rfl

/-- C1: the claim states that `initialize` accepts a `variable_frames`
boolean and that it is part of the configuration the model is initialized
with.  In the code no such flag exists: a fourth boolean argument after the
frame count is never read, so two calls differing only in it produce the
identical outcome and the identical call into the model, and the
configuration that call carries is exactly (model, sample_rate,
num_channels, num_frames) with no `variable_frames` component. -/
theorem c1_variable_frames_counterexample :
    moduleInitialize sampleUnit
        [JsValue.external (some 1), JsValue.number 48000, JsValue.number 2,
         JsValue.number 480, JsValue.boolean true] =
      moduleInitialize sampleUnit
        [JsValue.external (some 1), JsValue.number 48000, JsValue.number 2,
         JsValue.number 480, JsValue.boolean false] ∧
    (moduleInitialize sampleUnit
        [JsValue.external (some 1), JsValue.number 48000, JsValue.number 2,
         JsValue.number 480, JsValue.boolean true]).2 =
      [UnitCall.initCall (some 1) 48000 2 480] := by
  constructor
  · rfl
  · simp [moduleInitialize, numberUint32, argAt, jsToUint32, toUint16]

/-- C1 amended: `initialize` accepts sample_rate, num_channels and
num_frames only; the configuration passed to `aic_model_initialize` is
(sample_rate as uint32, num_channels as uint16, num_frames as size) and
contains no `variable_frames` flag; any argument beyond the frame count is
ignored. -/
theorem c1_initialize_config_amended (σ : Type) (u : AicUnit σ) (m : Option Nat)
    (sr ch nf : Int) (rest : List JsValue) :
    moduleInitialize u
        (JsValue.external m :: JsValue.number sr :: JsValue.number ch ::
         JsValue.number nf :: rest) =
      (JsOutcome.returned (JsValue.number
         (u.modelInitialize m (jsToUint32 sr) (toUint16 (jsToUint32 ch)) (jsToUint32 nf))),
       [UnitCall.initCall m (jsToUint32 sr) (toUint16 (jsToUint32 ch)) (jsToUint32 nf)]) ∧
    wrapperInitialize u m
        (JsValue.number sr :: JsValue.number ch :: JsValue.number nf :: rest) =
      (JsOutcome.returned (JsValue.number
         (u.modelInitialize m (jsToUint32 sr) (toUint16 (jsToUint32 ch)) (jsToUint32 nf))),
       [UnitCall.initCall m (jsToUint32 sr) (toUint16 (jsToUint32 ch)) (jsToUint32 nf)]) :=
  ⟨rfl, wrapperInitialize_cons u m sr ch nf rest⟩

/-- C2: the claim states that no operation throws and that malformed input
yields an enumerated error code as a return value.  In the code malformed
input raises a pending JavaScript TypeError instead: here
`ProcessInterleaved` called with a single numeric argument (wrong argument
count, and no typed array where the buffer is expected). -/
theorem c2_no_throw_counterexample :
    (wrapperProcessInterleaved sampleUnit ([] : List (List Int)) (some 1)
        [JsValue.number 0]).1 =
      JsOutcome.threw "Expected Float32Array and dimensions" := rfl

/-- C2 amended: operations raise a JavaScript TypeError on input that fails
their argument-shape checks (wrong argument count, or no typed array where
the sample buffer is expected) rather than returning an error code; calls
that pass those checks with numeric dimension arguments return the unit's
enumerated error code as a return value and do not throw. -/
theorem c2_throw_on_malformed_amended (σ : Type) (u : AicUnit σ)
    (heap : List (List σ)) (m : Option Nat) :
    (∀ args, (argAt args 0).isTypedArray = false →
      (wrapperProcessInterleaved u heap m args).1 =
        JsOutcome.threw "Expected Float32Array and dimensions") ∧
    (∀ args, args.length < 3 →
      (wrapperInitialize u m args).1 = JsOutcome.threw "Expected 3 arguments") ∧
    (∀ b ch nf rest,
      (wrapperProcessInterleaved u heap m
          (JsValue.float32Array b :: JsValue.number ch :: JsValue.number nf :: rest)).1 =
        JsOutcome.returned (JsValue.number
          (u.procInterleaved m (heap.getD b [])
            (toUint16 (jsToUint32 ch)) (jsToUint32 nf)).1)) ∧
    (∀ sr ch nf rest,
      (wrapperInitialize u m
          (JsValue.number sr :: JsValue.number ch :: JsValue.number nf :: rest)).1 =
        JsOutcome.returned (JsValue.number
          (u.modelInitialize m (jsToUint32 sr) (toUint16 (jsToUint32 ch)) (jsToUint32 nf)))) := by
  refine ⟨fun args h => ?_, fun args h => ?_, fun b ch nf rest => ?_, fun sr ch nf rest => ?_⟩
  · cases hv : argAt args 0 <;>
      simp_all [wrapperProcessInterleaved, JsValue.isTypedArray, JsValue.typedArrayData]
  · rw [wrapperInitialize, if_pos h]
  · rw [wrapperProcessInterleaved_cons]
  · rw [wrapperInitialize_cons]

/-- C3: `create` returns a handle exactly when it returns the success
code.  The result object always carries the unit's error code; its model
field is JS `null` precisely on failure, and on success (under the
spec-modelled guarantee that `aic_model_create` produces a non-null pointer
when it succeeds) it wraps a non-null handle. -/
theorem c3_create_handle_iff_success (σ : Type) (u : AicUnit σ) (t : Int)
    (key : String)
    (hspec : (u.modelCreate (jsToInt32 t) key).1 = aicSuccess →
      (u.modelCreate (jsToInt32 t) key).2.isSome = true) :
    ∃ mf : JsValue,
      createModel u [JsValue.number t, JsValue.str key] =
        JsOutcome.returned (JsValue.object
          [("error", JsValue.number (u.modelCreate (jsToInt32 t) key).1),
           ("model", mf)]) ∧
      (mf = JsValue.jsNull ↔ (u.modelCreate (jsToInt32 t) key).1 ≠ aicSuccess) ∧
      ((u.modelCreate (jsToInt32 t) key).1 = aicSuccess →
        ∃ p, mf = JsValue.external (some p)) := by
  rcases hr : u.modelCreate (jsToInt32 t) key with ⟨e, mo⟩
  rw [hr] at hspec
  cases mo with
  | none =>
    have hne : e ≠ aicSuccess := fun he => by simpa using hspec he
    refine ⟨JsValue.jsNull, ?_, ?_, fun he => absurd he hne⟩
    · simp [createModel, argAt, hr]
    · simpa using hne
  | some p =>
    by_cases he : e = aicSuccess
    · refine ⟨JsValue.external (some p), ?_, ?_, fun _ => ⟨p, rfl⟩⟩
      · simp [createModel, argAt, hr, he]
      · simp [he]
    · refine ⟨JsValue.jsNull, ?_, ?_, fun hc => absurd hc he⟩
      · simp [createModel, argAt, hr, he]
      · simpa using he

/-- Closed instance of `c3_create_handle_iff_success` at a concrete unit
whose creation succeeds with pointer 1. -/
theorem c3_create_handle_iff_success_witness :
    ∃ mf : JsValue,
      createModel sampleUnit [JsValue.number 1, JsValue.str "k"] =
        JsOutcome.returned (JsValue.object
          [("error", JsValue.number (sampleUnit.modelCreate (jsToInt32 1) "k").1),
           ("model", mf)]) ∧
      (mf = JsValue.jsNull ↔ (sampleUnit.modelCreate (jsToInt32 1) "k").1 ≠ aicSuccess) ∧
      ((sampleUnit.modelCreate (jsToInt32 1) "k").1 = aicSuccess →
        ∃ p, mf = JsValue.external (some p)) :=
  c3_create_handle_iff_success Int sampleUnit 1 "k" (fun _ => rfl)

/-- C4: destruction is safe and happens at most once per handle.
`DestroyModel` never throws and is a no-op on a missing, non-external or
null-wrapping argument; the wrapper destructor destroys a stored non-null
pointer exactly once and nulls the field, so running it again emits no
further destroy; and since `Initialize` never touches the stored pointer or
calls destroy, an initialize call (failed or not) followed by destruction
still destroys the handle exactly once. -/
theorem c4_destroy_at_most_once (σ : Type) (u : AicUnit σ) (st : Option Nat)
    (args iargs : List JsValue) (m : Nat) :
    ((argAt args 0).isExternal = false →
      destroyModel args = (JsOutcome.returned JsValue.jsNull, [])) ∧
    destroyModel (JsValue.external none :: args) =
      (JsOutcome.returned JsValue.jsNull, []) ∧
    (destroyModel args).1 = JsOutcome.returned JsValue.jsNull ∧
    (wrapperDestructor st).2 = none ∧
    (wrapperDestructor (wrapperDestructor st).2).1 = [] ∧
    (st = some m →
      ((wrapperInitialize u st iargs).2 ++
        (wrapperDestructor st).1).count (UnitCall.destroyCall m) = 1) := by
  refine ⟨fun h => ?_, rfl, ?_, ?_, ?_, fun hst => ?_⟩
  · rcases hv : argAt args 0 with _ | _ | n | s | b | (_ | p) | f | l | fs <;>
      simp_all [destroyModel, JsValue.isExternal]
  · rcases hv : argAt args 0 with _ | _ | n | s | b | (_ | p) | f | l | fs <;>
      simp [destroyModel, hv]
  · cases st <;> rfl
  · cases st <;> rfl
  · subst hst
    rw [List.count_append]
    have hinit : (wrapperInitialize u (some m) iargs).2.count (UnitCall.destroyCall m) = 0 := by
      rw [wrapperInitialize]
      split
      · rfl
      · split <;> simp [List.count_cons]
    rw [hinit]
    simp [wrapperDestructor, List.count_cons]

/-- C5: the claim states that a channel entry that is not a float buffer
makes the call fail with the unit never invoked.  The code only checks
`IsTypedArray()` (binding.cc lines 131 and 348): here an `Int32Array` as
the second of two declared channels passes the check, no TypeError is
raised, and `aic_model_process_planar` is invoked on the reinterpreted
storage — on both paths. -/
theorem c5_nonfloat_channel_counterexample :
    wrapperProcessPlanar sampleUnit ([] : List (List Int)) (some 1)
        [JsValue.arr [JsValue.float32Array 0, JsValue.int32Array 1],
         JsValue.number 2, JsValue.number 480] =
      (JsOutcome.returned (JsValue.number 0),
       [UnitCall.procPlanarCall (some 1) [0, 1] 2 480]) ∧
    moduleProcessPlanar sampleUnit ([] : List (List Int))
        [JsValue.external (some 1),
         JsValue.arr [JsValue.float32Array 0, JsValue.int32Array 1],
         JsValue.number 2, JsValue.number 480] =
      (JsOutcome.returned (JsValue.number 0),
       [UnitCall.procPlanarCall (some 1) [0, 1] 2 480]) :=
  ⟨rfl, rfl⟩

/-- C5 amended: `process_planar` requires each of the first `num_channels`
entries to be a typed array: a missing or non-typed-array entry makes both
paths raise a TypeError with the unit never invoked, while any run of
typed-array entries — of float element type or not — passes the check and
the unit is invoked on their collected (reinterpreted) buffers. -/
theorem c5_planar_typed_array_gate_amended (σ : Type) (u : AicUnit σ)
    (heap : List (List σ)) (m : Option Nat) (elems : List JsValue)
    (ch nf : Int) (rest : List JsValue)
    (h : ∃ j, j < toUint16 (jsToUint32 ch) ∧
      (elems.getD j JsValue.undefined).isTypedArray = false) :
    wrapperProcessPlanar u heap m
        (JsValue.arr elems :: JsValue.number ch :: JsValue.number nf :: rest) =
      (JsOutcome.threw "Expected Float32Array", []) ∧
    moduleProcessPlanar u heap
        (JsValue.external m :: JsValue.arr elems :: JsValue.number ch ::
         JsValue.number nf :: rest) =
      (JsOutcome.threw "Expected Float32Array", []) ∧
    (∀ elems2 bufs, collectChannels elems2 (toUint16 (jsToUint32 ch)) = some bufs →
      wrapperProcessPlanar u heap m
          (JsValue.arr elems2 :: JsValue.number ch :: JsValue.number nf :: rest) =
        (JsOutcome.returned (JsValue.number
           (u.procPlanarErr m (bufs.map (fun b => heap.getD b []))
             (toUint16 (jsToUint32 ch)) (jsToUint32 nf))),
         [UnitCall.procPlanarCall m bufs (toUint16 (jsToUint32 ch)) (jsToUint32 nf)])) := by
  have hnone : collectChannels elems (toUint16 (jsToUint32 ch)) = none :=
    (collectChannels_eq_none_iff elems _).mpr h
  have hlen : ¬ ((JsValue.arr elems :: JsValue.number ch :: JsValue.number nf ::
      rest).length < 3) := by
    simp only [List.length_cons]
    omega
  refine ⟨?_, ?_, fun elems2 bufs hsome => ?_⟩
  · rw [wrapperProcessPlanar]
    simp only [argAt, List.getD_cons_zero]
    rw [if_neg hlen]
    simp [numberUint32, argAt, List.getD_cons_zero, List.getD_cons_succ, hnone]
  · rw [moduleProcessPlanar]
    simp [numberUint32, argAt, List.getD_cons_zero, List.getD_cons_succ, hnone]
  · have hlen2 : ¬ ((JsValue.arr elems2 :: JsValue.number ch :: JsValue.number nf ::
        rest).length < 3) := by
      simp only [List.length_cons]
      omega
    rw [wrapperProcessPlanar]
    simp only [argAt, List.getD_cons_zero]
    rw [if_neg hlen2]
    simp [numberUint32, argAt, List.getD_cons_zero, List.getD_cons_succ, hsome]

/-- Closed instance of `c5_planar_typed_array_gate_amended`: two declared
channels but only one channel entry supplied — the missing entry reads as
`undefined`, both paths throw with no unit call, and a fully typed channel
array (one `Float32Array`, one `Int32Array`) is forwarded to the unit. -/
theorem c5_planar_typed_array_gate_amended_witness :
    wrapperProcessPlanar sampleUnit ([] : List (List Int)) (some 1)
        [JsValue.arr [JsValue.float32Array 0], JsValue.number 2, JsValue.number 480] =
      (JsOutcome.threw "Expected Float32Array", []) ∧
    moduleProcessPlanar sampleUnit ([] : List (List Int))
        [JsValue.external (some 1), JsValue.arr [JsValue.float32Array 0],
         JsValue.number 2, JsValue.number 480] =
      (JsOutcome.threw "Expected Float32Array", []) ∧
    (∀ elems2 bufs, collectChannels elems2 (toUint16 (jsToUint32 2)) = some bufs →
      wrapperProcessPlanar sampleUnit ([] : List (List Int)) (some 1)
          [JsValue.arr elems2, JsValue.number 2, JsValue.number 480] =
        (JsOutcome.returned (JsValue.number
           (sampleUnit.procPlanarErr (some 1)
             (bufs.map (fun b => ([] : List (List Int)).getD b []))
             (toUint16 (jsToUint32 2)) (jsToUint32 480))),
         [UnitCall.procPlanarCall (some 1) bufs
           (toUint16 (jsToUint32 2)) (jsToUint32 480)])) :=
  c5_planar_typed_array_gate_amended Int sampleUnit [] (some 1)
    [JsValue.float32Array 0] 2 480 [] ⟨1, by decide, rfl⟩

/-- C6: interleaved processing is in-place and length-preserving.  The
post-call heap is the pre-call heap with the unit's writes applied to the
very buffer the caller passed: no other buffer changes, no buffer is
allocated or dropped, and the caller's buffer keeps its exact length. -/
theorem c6_interleaved_in_place_length_preserving (σ : Type) (u : AicUnit σ)
    (heap : List (List σ)) (m : Option Nat) (b : Nat) (ch nf : Int)
    (rest : List JsValue) :
    (wrapperProcessInterleaved u heap m
        (JsValue.float32Array b :: JsValue.number ch :: JsValue.number nf :: rest)).2.2 =
      heap.set b (applyWrites (heap.getD b [])
        (u.procInterleaved m (heap.getD b [])
          (toUint16 (jsToUint32 ch)) (jsToUint32 nf)).2) ∧
    ((wrapperProcessInterleaved u heap m
        (JsValue.float32Array b :: JsValue.number ch :: JsValue.number nf :: rest)).2.2).length =
      heap.length ∧
    (∀ j, j ≠ b →
      ((wrapperProcessInterleaved u heap m
          (JsValue.float32Array b :: JsValue.number ch :: JsValue.number nf :: rest)).2.2).getD j [] =
        heap.getD j []) ∧
    (((wrapperProcessInterleaved u heap m
        (JsValue.float32Array b :: JsValue.number ch :: JsValue.number nf :: rest)).2.2).getD b []).length =
      (heap.getD b []).length := by
  rw [wrapperProcessInterleaved_cons]
  refine ⟨rfl, by simp [List.length_set], fun j hj => ?_, ?_⟩
  · simp [List.getD_eq_getElem?_getD, List.getElem?_set_ne (Ne.symm hj)]
  · by_cases hb : b < heap.length
    · rw [List.getD_eq_getElem?_getD, List.getElem?_set_self hb]
      simp [applyWrites_length]
    · have hge : heap.length ≤ b := Nat.le_of_not_lt hb
      have h1 : (heap.set b (applyWrites (heap.getD b [])
          (u.procInterleaved m (heap.getD b [])
            (toUint16 (jsToUint32 ch)) (jsToUint32 nf)).2))[b]? = (none : Option (List σ)) :=
        List.getElem?_eq_none (by simpa using hge)
      rw [List.getD_eq_getElem?_getD, h1, List.getD_eq_getElem?_getD,
        List.getElem?_eq_none hge]

/-- C7: `get_sdk_version` requires no handle and is a process-wide
constant: its result ignores the arguments and every live model, so any two
calls in the same process (same loaded unit) return the same string. -/
theorem c7_sdk_version_constant (σ : Type) (u : AicUnit σ)
    (w1 w2 : List (Option Nat)) (a1 a2 : List JsValue) :
    getSdkVersion u w1 a1 = getSdkVersion u w2 a2 ∧
    getSdkVersion u w1 a1 = JsOutcome.returned (JsValue.str u.sdkVersion) :=
  ⟨rfl, rfl⟩

/-- C8: the binding performs no buffer-length validation.  Even when the
declared dimensions describe more samples than the supplied buffer holds,
both processing entry points forward the caller-declared (truncated)
channel and frame counts to the computational unit unchanged and return its
error code instead of rejecting the call. -/
theorem c8_no_buffer_length_validation (σ : Type) (u : AicUnit σ)
    (heap : List (List σ)) (m : Option Nat) (b : Nat) (ch nf : Int)
    (rest : List JsValue)
    (hbig : (heap.getD b []).length < toUint16 (jsToUint32 ch) * jsToUint32 nf) :
    (wrapperProcessInterleaved u heap m
        (JsValue.float32Array b :: JsValue.number ch :: JsValue.number nf :: rest)).1 =
      JsOutcome.returned (JsValue.number
        (u.procInterleaved m (heap.getD b [])
          (toUint16 (jsToUint32 ch)) (jsToUint32 nf)).1) ∧
    (wrapperProcessInterleaved u heap m
        (JsValue.float32Array b :: JsValue.number ch :: JsValue.number nf :: rest)).2.1 =
      [UnitCall.procInterleavedCall m b (toUint16 (jsToUint32 ch)) (jsToUint32 nf)] ∧
    (moduleProcessInterleaved u heap
        (JsValue.external m :: JsValue.float32Array b :: JsValue.number ch ::
         JsValue.number nf :: rest)).2.1 =
      [UnitCall.procInterleavedCall m b (toUint16 (jsToUint32 ch)) (jsToUint32 nf)] := by
  rw [wrapperProcessInterleaved_cons, moduleProcessInterleaved_cons]
  exact ⟨rfl, rfl, rfl⟩

/-- Closed instance of `c8_no_buffer_length_validation`: a two-sample
buffer processed with declared dimensions 2 channels by 480 frames. -/
theorem c8_no_buffer_length_validation_witness :
    (wrapperProcessInterleaved sampleUnit [[0, 1]] (some 1)
        [JsValue.float32Array 0, JsValue.number 2, JsValue.number 480]).1 =
      JsOutcome.returned (JsValue.number
        (sampleUnit.procInterleaved (some 1) (([[0, 1]] : List (List Int)).getD 0 [])
          (toUint16 (jsToUint32 2)) (jsToUint32 480)).1) ∧
    (wrapperProcessInterleaved sampleUnit [[0, 1]] (some 1)
        [JsValue.float32Array 0, JsValue.number 2, JsValue.number 480]).2.1 =
      [UnitCall.procInterleavedCall (some 1) 0 (toUint16 (jsToUint32 2)) (jsToUint32 480)] ∧
    (moduleProcessInterleaved sampleUnit [[0, 1]]
        [JsValue.external (some 1), JsValue.float32Array 0, JsValue.number 2,
         JsValue.number 480]).2.1 =
      [UnitCall.procInterleavedCall (some 1) 0 (toUint16 (jsToUint32 2)) (jsToUint32 480)] :=
  c8_no_buffer_length_validation Int sampleUnit [[0, 1]] (some 1) 0 2 480 []
    (by decide)

/-- C9: numeric arguments are truncated before reaching the model: the
channel count is the caller's number reduced modulo `2^16`, and the sample
rate and frame count are reduced modulo `2^32` (the frame count passing
through a 32-bit unsigned conversion although the C parameter is
size-typed). -/
theorem c9_numeric_truncation (σ : Type) (u : AicUnit σ) (m : Option Nat)
    (heap : List (List σ)) (b : Nat) (sr ch nf : Int) (rest : List JsValue) :
    (wrapperInitialize u m
        (JsValue.number sr :: JsValue.number ch :: JsValue.number nf :: rest)).2 =
      [UnitCall.initCall m ((sr % (2 ^ 32 : Int)).toNat) ((ch % (2 ^ 16 : Int)).toNat)
        ((nf % (2 ^ 32 : Int)).toNat)] ∧
    (moduleInitialize u
        (JsValue.external m :: JsValue.number sr :: JsValue.number ch ::
         JsValue.number nf :: rest)).2 =
      [UnitCall.initCall m ((sr % (2 ^ 32 : Int)).toNat) ((ch % (2 ^ 16 : Int)).toNat)
        ((nf % (2 ^ 32 : Int)).toNat)] ∧
    (wrapperProcessInterleaved u heap m
        (JsValue.float32Array b :: JsValue.number ch :: JsValue.number nf :: rest)).2.1 =
      [UnitCall.procInterleavedCall m b ((ch % (2 ^ 16 : Int)).toNat)
        ((nf % (2 ^ 32 : Int)).toNat)] := by
  rw [wrapperInitialize_cons, moduleInitialize_cons, wrapperProcessInterleaved_cons,
    toUint16_jsToUint32, jsToUint32_eq_mod sr, jsToUint32_eq_mod nf]
  exact ⟨rfl, rfl, rfl⟩

/-- C10: introspection results always carry a numeric payload: each of the
four getters returns an object holding both the error field and its value
field (the out-parameter the binding initialized to zero), and whenever the
underlying operation fails — under the spec-modelled convention that a
failing `aic_*` getter does not write its out-parameter — the value field
is exactly 0. -/
theorem c10_introspection_numeric_payload (σ : Type) (u : AicUnit σ)
    (m : Option Nat) (p : Int)
    (h1 : (u.getParameterRes m (jsToInt32 p)).1 ≠ aicSuccess →
      (u.getParameterRes m (jsToInt32 p)).2 = none)
    (h2 : (u.getOutputDelayRes m).1 ≠ aicSuccess → (u.getOutputDelayRes m).2 = none)
    (h3 : (u.getOptimalSampleRateRes m).1 ≠ aicSuccess →
      (u.getOptimalSampleRateRes m).2 = none)
    (h4 : (u.getOptimalNumFramesRes m).1 ≠ aicSuccess →
      (u.getOptimalNumFramesRes m).2 = none) :
    (∃ (e : Nat) (v : Int),
      wrapperGetParameter u m [JsValue.number p] =
        (JsOutcome.returned (JsValue.object
           [("error", JsValue.number e), ("value", JsValue.number v)]),
         [UnitCall.getParameterCall m (jsToInt32 p)]) ∧
      (e ≠ aicSuccess → v = 0)) ∧
    (∃ (e v : Nat),
      wrapperGetOutputDelay u m =
        (JsOutcome.returned (JsValue.object
           [("error", JsValue.number e), ("delay", JsValue.number v)]),
         [UnitCall.getOutputDelayCall m]) ∧
      (e ≠ aicSuccess → v = 0)) ∧
    (∃ (e v : Nat),
      wrapperGetOptimalSampleRate u m =
        (JsOutcome.returned (JsValue.object
           [("error", JsValue.number e), ("sampleRate", JsValue.number v)]),
         [UnitCall.getOptimalSampleRateCall m]) ∧
      (e ≠ aicSuccess → v = 0)) ∧
    (∃ (e v : Nat),
      wrapperGetOptimalNumFrames u m =
        (JsOutcome.returned (JsValue.object
           [("error", JsValue.number e), ("numFrames", JsValue.number v)]),
         [UnitCall.getOptimalNumFramesCall m]) ∧
      (e ≠ aicSuccess → v = 0)) := by
  refine ⟨⟨(u.getParameterRes m (jsToInt32 p)).1, (u.getParameterRes m (jsToInt32 p)).2.getD 0,
      ?_, fun hne => ?_⟩,
    ⟨(u.getOutputDelayRes m).1, (u.getOutputDelayRes m).2.getD 0, rfl, fun hne => ?_⟩,
    ⟨(u.getOptimalSampleRateRes m).1, (u.getOptimalSampleRateRes m).2.getD 0, rfl, fun hne => ?_⟩,
    ⟨(u.getOptimalNumFramesRes m).1, (u.getOptimalNumFramesRes m).2.getD 0, rfl, fun hne => ?_⟩⟩
  · rw [wrapperGetParameter]
    simp [numberInt32, argAt, List.getD_cons_zero]
  · rw [h1 hne]
    rfl
  · rw [h2 hne]
    rfl
  · rw [h3 hne]
    rfl
  · rw [h4 hne]
    rfl

/-- Closed instance of `c10_introspection_numeric_payload` at a unit whose
getters fail with code 3 and leave their out-parameters untouched. -/
theorem c10_introspection_numeric_payload_witness :
    (∃ (e : Nat) (v : Int),
      wrapperGetParameter sampleUnit (some 1) [JsValue.number 7] =
        (JsOutcome.returned (JsValue.object
           [("error", JsValue.number e), ("value", JsValue.number v)]),
         [UnitCall.getParameterCall (some 1) (jsToInt32 7)]) ∧
      (e ≠ aicSuccess → v = 0)) ∧
    (∃ (e v : Nat),
      wrapperGetOutputDelay sampleUnit (some 1) =
        (JsOutcome.returned (JsValue.object
           [("error", JsValue.number e), ("delay", JsValue.number v)]),
         [UnitCall.getOutputDelayCall (some 1)]) ∧
      (e ≠ aicSuccess → v = 0)) ∧
    (∃ (e v : Nat),
      wrapperGetOptimalSampleRate sampleUnit (some 1) =
        (JsOutcome.returned (JsValue.object
           [("error", JsValue.number e), ("sampleRate", JsValue.number v)]),
         [UnitCall.getOptimalSampleRateCall (some 1)]) ∧
      (e ≠ aicSuccess → v = 0)) ∧
    (∃ (e v : Nat),
      wrapperGetOptimalNumFrames sampleUnit (some 1) =
        (JsOutcome.returned (JsValue.object
           [("error", JsValue.number e), ("numFrames", JsValue.number v)]),
         [UnitCall.getOptimalNumFramesCall (some 1)]) ∧
      (e ≠ aicSuccess → v = 0)) :=
  c10_introspection_numeric_payload Int sampleUnit (some 1) 7
    (fun _ => rfl) (fun _ => rfl) (fun _ => rfl) (fun _ => rfl)

end AicBinding
